import Mathlib

/-
  Verification development for the Mini-Stripe payment-link service.

  The definitions below are a shallow embedding of the backend route
  handlers in src/routes/public.js (payment-link redemption, the card
  brand helper, the mock bank gateway) and of the link-creation route,
  together with the database constraints declared in the SQL migrations
  (in particular the check_uses_limit constraint on payment_links and
  the status CHECK on transactions).

  Conventions:
  - monetary amounts are integers in cents (the source stores
    DECIMAL(10,2); the validator isFloat min 0.01 becomes 1 <= cents);
  - timestamps are naturals, epoch milliseconds;
  - the wall clock (now, current year, current month) is passed
    explicitly, frozen for the duration of a run, mirroring the fact
    that the handlers read the clock through moment() / new Date().
-/

namespace MiniStripe

/-- Transaction status values, from the CHECK constraint of
migration 003_create_transactions_table.sql. -/
inductive TxStatus where
  | pending
  | processing
  | completed
  | failed
  | cancelled
deriving DecidableEq

/-- A status is terminal when it is completed, failed or cancelled. -/
def TxStatus.isTerminal : TxStatus → Bool
  | .completed => true
  | .failed => true
  | .cancelled => true
  | _ => false

/-- A payment_links row, from migration 002_create_payment_links_table.sql.
The internal id and the public link token are distinct, as in the table. -/
structure PaymentLink where
  id : Nat
  linkId : String
  amount : Int
  currency : String
  description : Option String
  expiresAt : Option Nat
  maxUses : Option Nat
  currentUses : Nat
  isActive : Bool
deriving DecidableEq

/-- A transactions row, from migration 003_create_transactions_table.sql. -/
structure Txn where
  id : Nat
  paymentLinkId : Nat
  payerEmail : String
  payerName : String
  amount : Int
  currency : String
  status : TxStatus
  paymentMethod : String
  cardLast4 : String
  cardBrand : String
  bankResponseCode : Option String
  bankResponseMessage : Option String
  failureReason : Option String
  processedAt : Option Nat
deriving DecidableEq

/-- The body of POST /pay/:linkId/process together with the link token
from the URL. Expiry month and year arrive as integers after the
express-validator isInt checks. -/
structure PayReq where
  linkId : String
  payerEmail : String
  payerName : String
  cardNumber : String
  expiryMonth : Int
  expiryYear : Int
  cvv : String
deriving DecidableEq

/-- The frozen wall clock of one request: epoch milliseconds for
moment() comparisons, plus the calendar year and month used by the
expiry-date checks. -/
structure Clock where
  now : Nat
  curYear : Int
  curMonth : Int
deriving DecidableEq

/-- The response shape of the mock gateway simulateBankAPI. Its status
field is written verbatim into transactions.status by the handler. -/
structure BankResponse where
  status : TxStatus
  responseCode : String
  responseMessage : String
  failureReason : Option String
deriving DecidableEq

/-- Length of a string in characters, computed on the character list
so that it reduces inside the kernel. -/
def strLen (s : String) : Nat :=
  s.data.length

/-- Length of a string after JavaScript trim, dropping whitespace from
both ends. -/
def trimLen (s : String) : Nat :=
  ((s.data.dropWhile Char.isWhitespace).reverse.dropWhile Char.isWhitespace).length

/-- Whether the first list is a leading segment of the second. -/
def leadingMatch : List Char → List Char → Bool
  | [], _ => true
  | _ :: _, [] => false
  | p :: ps, c :: cs => p == c && leadingMatch ps cs

/-- Whether the string starts with the given pattern. -/
def startsWithStr (s pat : String) : Bool :=
  leadingMatch pat.data s.data

/-- Models the regex ^\d+$ of the card-number and CVV validators:
nonempty and all digits. -/
def digitsOnly (s : String) : Bool :=
  !s.data.isEmpty && s.data.all Char.isDigit

/-- Models the validator.js isEmail check at the precision the claims
use: exactly one @ separating a nonempty local part from a domain that
contains a dot, with no spaces. The concrete emails appearing in this
file are classified identically by validator.js. -/
def isEmailLike (s : String) : Bool :=
  let cs := s.data
  let localPart := cs.takeWhile (fun ch => ch != '@')
  match cs.dropWhile (fun ch => ch != '@') with
  | _ :: domain =>
      cs.count '@' == 1 && !localPart.isEmpty && !domain.isEmpty
        && domain.contains '.' && !cs.contains ' '
  | [] => false

/-- The express-validator chain of POST /pay/:linkId/process
(public.js lines 92 to 116), returning the violated fields in source
order; the handler rejects when this list is nonempty. -/
def validateProcessBody (c : Clock) (r : PayReq) : List String :=
  (if isEmailLike r.payerEmail then [] else ["payerEmail"])
  ++ (if 1 ≤ trimLen r.payerName ∧ trimLen r.payerName ≤ 255 then []
      else ["payerName"])
  ++ (if (13 ≤ strLen r.cardNumber ∧ strLen r.cardNumber ≤ 19)
         ∧ digitsOnly r.cardNumber then [] else ["cardNumber"])
  ++ (if 1 ≤ r.expiryMonth ∧ r.expiryMonth ≤ 12 then [] else ["expiryMonth"])
  ++ (if c.curYear ≤ r.expiryYear then [] else ["expiryYear"])
  ++ (if (3 ≤ strLen r.cvv ∧ strLen r.cvv ≤ 4) ∧ digitsOnly r.cvv then []
      else ["cvv"])

/-- The in-handler card expiry check (public.js lines 173 to 181):
moment isBefore with month granularity compares (year, month)
lexicographically against the current (year, month). -/
def cardExpired (c : Clock) (r : PayReq) : Bool :=
  r.expiryYear < c.curYear
    || (r.expiryYear == c.curYear && r.expiryMonth < c.curMonth)

/-- Errors a redemption can fail with before a ledger row exists,
one per early-return branch of the handler. -/
inductive EarlyErr where
  | validationFailed (fields : List String)
  | notFound
  | linkInactive
  | linkExpired
  | linkExhausted
  | cardExpired
deriving DecidableEq

/-- The eligibility pre-check on the link snapshot (public.js lines
152 to 171), in source order: active flag, then expiry, then usage cap.
The usage-cap guard reproduces the JS truthiness test on max_uses, so a
zero max_uses skips the check exactly as max_uses NULL does. -/
def linkCheck (c : Clock) (link : PaymentLink) : Option EarlyErr :=
  if !link.isActive then some .linkInactive
  else match link.expiresAt with
    | some e =>
        if e < c.now then some .linkExpired
        else match link.maxUses with
          | some m =>
              if m ≠ 0 ∧ m ≤ link.currentUses then some .linkExhausted
              else none
          | none => none
    | none => match link.maxUses with
        | some m =>
            if m ≠ 0 ∧ m ≤ link.currentUses then some .linkExhausted
            else none
        | none => none

/-- getCardBrand (public.js lines 273 to 288): first matching leading
pattern in object order visa, mastercard, amex, discover. -/
def getCardBrand (n : String) : String :=
  if startsWithStr n "4" then "Visa"
  else if startsWithStr n "51" || startsWithStr n "52" || startsWithStr n "53"
      || startsWithStr n "54" || startsWithStr n "55" then "Mastercard"
  else if startsWithStr n "34" || startsWithStr n "37" then "Amex"
  else if startsWithStr n "6011" || startsWithStr n "65" then "Discover"
  else "Unknown"

/-- Whether the last character of a string is the digit zero: models
parseInt(s.slice(-1)) === 0 for the digit strings the handler feeds it
(parseInt of a non-digit or of the empty string is NaN, never 0). -/
def lastCharIsZero (s : String) : Bool :=
  s.data.getLast? == some '0'

/-- simulateBankAPI (public.js lines 293 to 331): a deterministic mock
keyed off the last digits of the card number and CVV. The artificial
setTimeout delay has no observable effect on the returned value and the
function applies no timeout of its own. -/
def simulateBankAPI (cardNumber cvv : String) : BankResponse :=
  if lastCharIsZero cardNumber then
    { status := .failed, responseCode := "DECLINED",
      responseMessage := "Card declined by issuer",
      failureReason := some "Insufficient funds" }
  else if lastCharIsZero cvv then
    { status := .failed, responseCode := "INVALID_CVV",
      responseMessage := "Invalid security code",
      failureReason := some "Incorrect CVV" }
  else
    { status := .completed, responseCode := "APPROVED",
      responseMessage := "Transaction approved",
      failureReason := none }

/-- The SELECT by link token (public.js lines 133 to 140); link_id has
a UNIQUE constraint, so find? is the lookup. -/
def findLink (links : List PaymentLink) (tok : String) : Option PaymentLink :=
  links.find? (fun l => l.linkId == tok)

/-- The INSERT INTO transactions of public.js lines 188 to 207: a fresh
processing row copying amount and currency from the link, storing only
the last four digits and the derived brand of the card. -/
def mkTxn (txId : Nat) (link : PaymentLink) (r : PayReq) : Txn :=
  { id := txId
    paymentLinkId := link.id
    payerEmail := r.payerEmail
    payerName := r.payerName
    amount := link.amount
    currency := link.currency
    status := .processing
    paymentMethod := "card"
    cardLast4 := String.mk (r.cardNumber.data.drop (strLen r.cardNumber - 4))
    cardBrand := getCardBrand r.cardNumber
    bankResponseCode := none
    bankResponseMessage := none
    failureReason := none
    processedAt := none }

/-- The UPDATE transactions of public.js lines 222 to 234: write the
bank response fields and processed_at into the row. -/
def applyBank (now : Nat) (bank : BankResponse) (t : Txn) : Txn :=
  { t with
    status := bank.status
    bankResponseCode := some bank.responseCode
    bankResponseMessage := some bank.responseMessage
    failureReason := bank.failureReason
    processedAt := some now }

/-- The UPDATE transactions WHERE id of the finalize step applied to
the whole table: only the row with the freshly generated id is
rewritten. -/
def finalizeTable (now : Nat) (bank : BankResponse) (j : Nat) (l : List Txn) :
    List Txn :=
  l.map (fun t => if t.id == j then applyBank now bank t else t)

/-- The UPDATE payment_links SET current_uses = current_uses + 1 of
public.js lines 238 to 241, under the check_uses_limit constraint of
migration 002 (max_uses IS NULL OR current_uses <= max_uses): the
statement raises, returning none, exactly when the incremented row
would violate the constraint; otherwise the matching row is bumped. -/
def incrementUses (links : List PaymentLink) (lid : Nat) :
    Option (List PaymentLink) :=
  if links.any (fun l =>
      l.id == lid &&
        (match l.maxUses with
         | some m => m < l.currentUses + 1
         | none => false)) then
    none
  else
    some (links.map (fun l =>
      if l.id == lid then { l with currentUses := l.currentUses + 1 } else l))

/-- The phase an in-flight redemption request is in. Each phase
boundary is one awaited database operation of the handler, so
interleavings of concurrent requests are interleavings of phases. -/
inductive Phase where
  | notStarted
  | readDone (link : PaymentLink)
  | txCreated (txId : Nat) (linkDbId : Nat)
  | txFinalized (txId : Nat) (linkDbId : Nat)
  | rejected (e : EarlyErr)
  | finished
  | errored
deriving DecidableEq

/-- One concurrent redemption request: its input and current phase. -/
structure PayTask where
  req : PayReq
  phase : Phase
deriving DecidableEq

/-- The global state: the two tables, the id counter for fresh
transaction rows, and the pool of concurrent requests (indexed by
natural numbers; absent indices carry no request). -/
structure GState where
  links : List PaymentLink
  txs : List Txn
  nextTx : Nat
  tasks : Nat → Option PayTask

/-- The pre-persistence part of the handler, run on the snapshot read
of the link (public.js lines 118 to 185): body validation, resolution
by token, the eligibility pre-check, and the card expiry check, each
short-circuiting in source order. It only computes the next phase; it
writes nothing. -/
def resolvePhase (c : Clock) (links : List PaymentLink) (r : PayReq) : Phase :=
  let errs := validateProcessBody c r
  if errs = [] then
    match findLink links r.linkId with
    | none => .rejected .notFound
    | some link =>
        match linkCheck c link with
        | some e => .rejected e
        | none =>
            if cardExpired c r then .rejected .cardExpired
            else .readDone link
  else .rejected (.validationFailed errs)

/-- Advance the request at index i by one database operation, following
the handler body: snapshot read plus pure checks, transaction INSERT,
transaction UPDATE with the bank response, then the conditional usage
bump (only when the bank reported completed); a constraint violation in
the bump propagates out of the handler through next(error), leaving the
request errored. Returns none when the request is absent or already in
a terminal phase. -/
def advance (c : Clock) (s : GState) (i : Nat) : Option GState :=
  match s.tasks i with
  | none => none
  | some task =>
    match task.phase with
    | .notStarted =>
        some { s with tasks := (Function.update s.tasks i
                 (some { task with phase := resolvePhase c s.links task.req })) }
    | .readDone link =>
        some { s with
          txs := s.txs ++ [mkTxn s.nextTx link task.req]
          nextTx := s.nextTx + 1
          tasks := (Function.update s.tasks i
            (some { task with phase := .txCreated s.nextTx link.id })) }
    | .txCreated j lid =>
        some { s with
          txs := finalizeTable c.now
            (simulateBankAPI task.req.cardNumber task.req.cvv) j s.txs
          tasks := (Function.update s.tasks i
            (some { task with phase := .txFinalized j lid })) }
    | .txFinalized _ lid =>
        if (simulateBankAPI task.req.cardNumber task.req.cvv).status = .completed then
          match incrementUses s.links lid with
          | some links2 =>
              some { s with links := links2
                            tasks := (Function.update s.tasks i
                              (some { task with phase := .finished })) }
          | none =>
              some { s with tasks := (Function.update s.tasks i
                       (some { task with phase := .errored })) }
        else
          some { s with tasks := (Function.update s.tasks i
                   (some { task with phase := .finished })) }
    | .rejected _ => none
    | .finished => none
    | .errored => none

/-- Run a schedule: advance the listed request indices in order. -/
def runSched (c : Clock) : GState → List Nat → Option GState
  | s, [] => some s
  | s, i :: rest =>
      match advance c s i with
      | none => none
      | some s2 => runSched c s2 rest

/-- One interleaving step: some request advances by one operation. -/
def Step (c : Clock) (s s2 : GState) : Prop :=
  ∃ i, advance c s i = some s2

/-- Reachability under arbitrary interleaving of the requests. -/
def Reachable (c : Clock) : GState → GState → Prop :=
  Relation.ReflTransGen (Step c)

/-- The initial state for a list of stored links and a batch of
concurrent redemption requests, none of which has started. -/
def initState (links : List PaymentLink) (reqs : List PayReq) : GState :=
  { links := links
    txs := []
    nextTx := 0
    tasks := fun i => (reqs[i]?).map (fun r => { req := r, phase := .notStarted }) }

/-- Phase of the request at index i, for stating properties. -/
def phaseOf (s : GState) (i : Nat) : Option Phase :=
  (s.tasks i).map PayTask.phase

/-- Number of completed transactions referencing the link with internal
id lid. -/
def completedCount (s : GState) (lid : Nat) : Nat :=
  (s.txs.filter (fun t => t.paymentLinkId == lid && t.status == TxStatus.completed)).length

/-- A date field of the create-link body: absent, present but not a
valid ISO 8601 string (what the isISO8601 validator rejects), or
present and parsing to an epoch-milliseconds timestamp. -/
inductive DateInput where
  | absent
  | malformed
  | valid (t : Nat)
deriving DecidableEq

/-- The body of POST /api/payments/links. The amount is in cents. -/
structure CreateLinkReq where
  amount : Int
  currency : Option String
  description : Option String
  expiresAt : DateInput
  maxUses : Option Int
deriving DecidableEq

/-- The express-validator chain of POST /api/payments/links (public.js
lines 579 to 598), returning every violated field in source order:
amount isFloat at least 0.01, currency optional exactly 3 characters,
description optional at most 500 characters, expiresAt optional valid
ISO 8601 date, maxUses optional integer at least 1. No check compares
expiresAt against the current time. -/
def validateCreateLink (r : CreateLinkReq) : List String :=
  (if 1 ≤ r.amount then [] else ["amount"])
  ++ (match r.currency with
      | none => []
      | some cur => if strLen cur = 3 then [] else ["currency"])
  ++ (match r.description with
      | none => []
      | some d => if strLen d ≤ 500 then [] else ["description"])
  ++ (match r.expiresAt with
      | .malformed => ["expiresAt"]
      | _ => [])
  ++ (match r.maxUses with
      | none => []
      | some m => if 1 ≤ m then [] else ["maxUses"])

/-- parseInt(process.env.PAYMENT_LINK_EXPIRY_HOURS) with fallback 24
(public.js line 622): an unset or unparsable variable gives NaN and a
zero value is falsy, so both fall back to 24 through the or. -/
def defaultExpiryHours (env : Option Nat) : Nat :=
  match env with
  | none => 24
  | some 0 => 24
  | some n => n

/-- The create-link handler (public.js lines 599 to 666): reject with
the list of violated fields when validation fails, otherwise insert a
link whose expiry is the provided date, or now plus the configured
number of hours when the date was omitted; currency defaults to USD,
is_active is set true and current_uses starts at the column default 0.
Returns the created row and the grown table. The malformed date branch
after a passing validation is unreachable. -/
def createLink (env : Option Nat) (now : Nat) (r : CreateLinkReq)
    (links : List PaymentLink) (newId : Nat) (tok : String) :
    Except (List String) (PaymentLink × List PaymentLink) :=
  let errs := validateCreateLink r
  if errs = [] then
    let expiry : Option Nat :=
      match r.expiresAt with
      | .valid t => some t
      | .absent => some (now + defaultExpiryHours env * 3600000)
      | .malformed => none
    let link : PaymentLink :=
      { id := newId
        linkId := tok
        amount := r.amount
        currency := r.currency.getD "USD"
        description := r.description
        expiresAt := expiry
        maxUses := r.maxUses.map Int.toNat
        currentUses := 0
        isActive := true }
    .ok (link, links ++ [link])
  else .error errs

/-- A frozen clock for the concrete scenarios. -/
def cRace : Clock := { now := 1000, curYear := 2026, curMonth := 10 }

/-- A stored link capped at one use, unexpired and active. -/
def linkCap1 : PaymentLink :=
  { id := 1
    linkId := "lnkcap"
    amount := 500
    currency := "USD"
    description := none
    expiresAt := some 2000
    maxUses := some 1
    currentUses := 0
    isActive := true }

/-- A structurally valid redemption request whose card the mock
gateway approves (last digits of card and CVV nonzero). -/
def reqA : PayReq :=
  { linkId := "lnkcap"
    payerEmail := "a@b.co"
    payerName := "Al"
    cardNumber := "4242424242424241"
    expiryMonth := 5
    expiryYear := 2027
    cvv := "123" }

/-- A second approved request against the same link. -/
def reqB : PayReq :=
  { linkId := "lnkcap"
    payerEmail := "c@d.co"
    payerName := "Bo"
    cardNumber := "5142424242424241"
    expiryMonth := 6
    expiryYear := 2027
    cvv := "124" }

/-- Two concurrent redemptions of the capped link, not yet started. -/
def raceInit : GState := initState [linkCap1] [reqA, reqB]

/-- The interleaving in which both requests pass the snapshot
eligibility check before either finalizes: read A, read B, insert A,
insert B, bank update A, bank update B, usage bump A, usage bump B. -/
def afterRace : GState :=
  (runSched cRace raceInit [0, 1, 0, 1, 0, 1, 0, 1]).getD raceInit

/-- The inductive invariant of the interleaving semantics: transaction
ids are fresh and duplicate-free, every request that has created its
ledger row and not yet finalized it points at a processing row, and no
two in-flight requests point at the same row. -/
def Inv (s : GState) : Prop :=
  (∀ t ∈ s.txs, t.id < s.nextTx)
  ∧ (s.txs.map Txn.id).Nodup
  ∧ (∀ i task j lid, s.tasks i = some task → task.phase = .txCreated j lid →
      ∃ tx ∈ s.txs, tx.id = j ∧ tx.status = .processing)
  ∧ (∀ i i2 task task2 j lid j2 lid2, i ≠ i2 →
      s.tasks i = some task → s.tasks i2 = some task2 →
      task.phase = .txCreated j lid → task2.phase = .txCreated j2 lid2 →
      j ≠ j2)

/-- A structurally valid request whose card the mock gateway declines
(card number ending in zero). -/
def reqDecl : PayReq :=
  { reqA with cardNumber := "4242424242424240" }

/-- A structurally valid request against a token that matches no
stored link. -/
def reqUnknown : PayReq :=
  { reqA with linkId := "missing" }

/-- A request with a malformed card number (too short) against a token
that matches no stored link. -/
def reqBadCard : PayReq :=
  { reqA with linkId := "missing", cardNumber := "123" }

/-- A create-link request whose expiry date is valid ISO 8601 but lies
in the past, and whose currency is three characters without being
letters. -/
def reqPastExpiry : CreateLinkReq :=
  { amount := 1000
    currency := some "12#"
    description := none
    expiresAt := .valid 5
    maxUses := some 2 }

/-- A create-link request violating several validated fields at once:
non-positive amount, two-character currency, malformed expiry date and
zero maxUses. -/
def reqBadCreate : CreateLinkReq :=
  { amount := 0
    currency := some "EU"
    description := none
    expiresAt := .malformed
    maxUses := some 0 }

/-- A valid create-link request with the expiry date omitted. -/
def reqNoExpiry : CreateLinkReq :=
  { amount := 500
    currency := none
    description := none
    expiresAt := .absent
    maxUses := none }

/-- The single approved redemption used by the terminal-immutability
witness, before any step has run. -/
def wsInit : GState := initState [linkCap1] [reqA]

/-- The state after the read, insert and finalize steps of the single
approved redemption: its transaction is completed. -/
def ws3 : GState := (runSched cRace wsInit [0, 0, 0]).getD wsInit

/-- One further step (the usage bump) from ws3. -/
def ws4 : GState := (advance cRace ws3 0).getD ws3

/-- Fallback transaction value for list indexing in the witness. -/
def defaultTxn : Txn := mkTxn 0 linkCap1 reqA

/-- The completed transaction present in ws3. -/
def wtx : Txn := ws3.txs.getD 0 defaultTxn

/-- C4 link and request for the witness: an inactive link. -/
def linkOff : PaymentLink :=
  { id := 2
    linkId := "lnkoff"
    amount := 500
    currency := "USD"
    description := none
    expiresAt := some 2000
    maxUses := some 1
    currentUses := 0
    isActive := false }

/-- A structurally valid request against the inactive link. -/
def reqOff : PayReq :=
  { reqA with linkId := "lnkoff" }

theorem runSched_reachable (c : Clock) (l : List Nat) :
    ∀ s s2 : GState, runSched c s l = some s2 → Reachable c s s2 := by
  induction l with
  | nil =>
      intro s s2 h
      simp only [runSched, Option.some.injEq] at h
      exact h ▸ Relation.ReflTransGen.refl
  | cons i rest ih =>
      intro s s2 h
      simp only [runSched] at h
      cases hadv : advance c s i with
      | none => rw [hadv] at h; cases h
      | some s1 =>
          rw [hadv] at h
          exact Relation.ReflTransGen.head ⟨i, hadv⟩ (ih s1 s2 h)

theorem applyBank_id (now : Nat) (bank : BankResponse) (t : Txn) :
    (applyBank now bank t).id = t.id := rfl

theorem finalizeTable_ids (now : Nat) (bank : BankResponse) (j : Nat)
    (l : List Txn) :
    (finalizeTable now bank j l).map Txn.id = l.map Txn.id := by
  induction l with
  | nil => rfl
  | cons x xs ih =>
      simp only [finalizeTable, List.map] at ih ⊢
      rw [ih]
      by_cases hx : x.id == j
      · simp [hx, applyBank_id]
      · simp [hx]

theorem mem_finalizeTable_of_ne (now : Nat) (bank : BankResponse) (j : Nat)
    {l : List Txn} {t : Txn} (hm : t ∈ l) (hne : t.id ≠ j) :
    t ∈ finalizeTable now bank j l := by
  have : (if t.id == j then applyBank now bank t else t) = t := by
    simp [hne]
  exact this ▸ List.mem_map_of_mem _ hm

theorem eq_of_mem_of_nodup_ids {l : List Txn}
    (h : (l.map Txn.id).Nodup) {a b : Txn}
    (ha : a ∈ l) (hb : b ∈ l) (hid : a.id = b.id) : a = b := by
  induction l with
  | nil => cases ha
  | cons x xs ih =>
      simp only [List.map, List.nodup_cons] at h
      obtain ⟨hx, hnd⟩ := h
      rcases List.mem_cons.mp ha with rfl | ha2
      · rcases List.mem_cons.mp hb with rfl | hb2
        · rfl
        · exact absurd (hid ▸ List.mem_map_of_mem Txn.id hb2) hx
      · rcases List.mem_cons.mp hb with rfl | hb2
        · exact absurd (hid ▸ List.mem_map_of_mem Txn.id ha2) hx
        · exact ih hnd ha2 hb2

theorem resolvePhase_shape (c : Clock) (links : List PaymentLink) (r : PayReq) :
    (∃ link, resolvePhase c links r = .readDone link)
      ∨ (∃ e, resolvePhase c links r = .rejected e) := by
  unfold resolvePhase
  by_cases hv : validateProcessBody c r = []
  · simp only [hv, if_pos rfl]
    cases hf : findLink links r.linkId with
    | none => exact Or.inr ⟨.notFound, rfl⟩
    | some link =>
        simp only
        cases hc : linkCheck c link with
        | some e => exact Or.inr ⟨e, rfl⟩
        | none =>
            simp only
            by_cases hce : cardExpired c r
            · simp only [hce, if_true]
              exact Or.inr ⟨.cardExpired, rfl⟩
            · simp only [hce, if_false]
              exact Or.inl ⟨link, rfl⟩
  · simp only [hv, if_neg hv]
    exact Or.inr ⟨.validationFailed (validateProcessBody c r), rfl⟩

theorem inv_initState (links : List PaymentLink) (reqs : List PayReq) :
    Inv (initState links reqs) := by
  refine ⟨?_, ?_, ?_, ?_⟩
  · intro t ht; cases ht
  · exact List.nodup_nil
  · intro i task j lid htask hph
    simp only [initState, Option.map_eq_some'] at htask
    obtain ⟨r, _, rfl⟩ := htask
    cases hph
  · intro i i2 task task2 j lid j2 lid2 hne htask htask2 hph hph2
    simp only [initState, Option.map_eq_some'] at htask
    obtain ⟨r, _, rfl⟩ := htask
    cases hph

theorem finalizeEntry_id (now : Nat) (bank : BankResponse) (j : Nat) (t : Txn) :
    (if t.id == j then applyBank now bank t else t).id = t.id := by
  by_cases h : t.id == j <;> simp [h, applyBank_id]

theorem update_lookup {f : Nat → Option PayTask} {i : Nat}
    {v : Option PayTask} {i2 : Nat} {task2 : PayTask}
    (h : Function.update f i v i2 = some task2) :
    (i2 = i ∧ v = some task2) ∨ (i2 ≠ i ∧ f i2 = some task2) := by
  by_cases hi : i2 = i
  · subst hi
    rw [Function.update_same] at h
    exact Or.inl ⟨rfl, h⟩
  · rw [Function.update_noteq hi] at h
    exact Or.inr ⟨hi, h⟩

theorem inv_preserved {c : Clock} {s : GState} {i : Nat} {s2 : GState}
    (hinv : Inv s) (hadv : advance c s i = some s2) : Inv s2 := by
  obtain ⟨h1, h2, h3, h4⟩ := hinv
  unfold advance at hadv
  split at hadv
  case h_1 htask => cases hadv
  case h_2 task htask =>
    split at hadv
    case h_1 hph =>
      obtain rfl := Option.some.inj hadv
      refine ⟨h1, h2, ?_, ?_⟩
      · intro i2 task2 j lid htask2 hph2
        rcases update_lookup htask2 with ⟨hi, hv⟩ | ⟨hi, htask2b⟩
        · obtain rfl := Option.some.inj hv
          have hph2a : resolvePhase c s.links task.req = Phase.txCreated j lid := hph2
          rcases resolvePhase_shape c s.links task.req with ⟨lnk, hs⟩ | ⟨e, hs⟩ <;>
            rw [hs] at hph2a <;> cases hph2a
        · exact h3 i2 task2 j lid htask2b hph2
      · intro i2 i3 task2 task3 j lid j2 lid2 hne htask2 htask3 hph2 hph3
        rcases update_lookup htask2 with ⟨hi2, hv2⟩ | ⟨hi2, htask2b⟩
        · obtain rfl := Option.some.inj hv2
          have hph2a : resolvePhase c s.links task.req = Phase.txCreated j lid := hph2
          rcases resolvePhase_shape c s.links task.req with ⟨lnk, hs⟩ | ⟨e, hs⟩ <;>
            rw [hs] at hph2a <;> cases hph2a
        · rcases update_lookup htask3 with ⟨hi3, hv3⟩ | ⟨hi3, htask3b⟩
          · obtain rfl := Option.some.inj hv3
            have hph3a : resolvePhase c s.links task.req = Phase.txCreated j2 lid2 := hph3
            rcases resolvePhase_shape c s.links task.req with ⟨lnk, hs⟩ | ⟨e, hs⟩ <;>
              rw [hs] at hph3a <;> cases hph3a
          · exact h4 i2 i3 task2 task3 j lid j2 lid2 hne htask2b htask3b hph2 hph3
    case h_2 link hph =>
      obtain rfl := Option.some.inj hadv
      refine ⟨?_, ?_, ?_, ?_⟩
      · intro t ht
        rcases List.mem_append.mp ht with ht2 | ht2
        · exact Nat.lt_succ_of_lt (h1 t ht2)
        · rcases List.mem_singleton.mp ht2 with rfl
          exact Nat.lt_succ_self s.nextTx
      · show ((s.txs ++ [mkTxn s.nextTx link task.req]).map Txn.id).Nodup
        rw [List.map_append, List.nodup_append]
        refine ⟨h2, List.nodup_singleton _, ?_⟩
        intro a ha hb
        rcases List.mem_singleton.mp hb with rfl
        obtain ⟨t, ht, hid⟩ := List.mem_map.mp ha
        have hmk : (mkTxn s.nextTx link task.req).id = s.nextTx := rfl
        rw [hmk] at hid
        exact Nat.lt_irrefl _ (hid ▸ h1 t ht)
      · intro i2 task2 j lid htask2 hph2
        rcases update_lookup htask2 with ⟨hi, hv⟩ | ⟨hi, htask2b⟩
        · obtain rfl := Option.some.inj hv
          have hph2a : Phase.txCreated s.nextTx link.id = Phase.txCreated j lid := hph2
          cases hph2a
          exact ⟨mkTxn s.nextTx link task.req,
            List.mem_append_right _ (List.mem_singleton_self _), rfl, rfl⟩
        · obtain ⟨tx, htx, hid, hst⟩ := h3 i2 task2 j lid htask2b hph2
          exact ⟨tx, List.mem_append_left _ htx, hid, hst⟩
      · intro i2 i3 task2 task3 j lid j2 lid2 hne htask2 htask3 hph2 hph3
        rcases update_lookup htask2 with ⟨hi2, hv2⟩ | ⟨hi2, htask2b⟩
        · obtain rfl := Option.some.inj hv2
          have hph2a : Phase.txCreated s.nextTx link.id = Phase.txCreated j lid := hph2
          cases hph2a
          rcases update_lookup htask3 with ⟨hi3, hv3⟩ | ⟨hi3, htask3b⟩
          · exact absurd (hi2.trans hi3.symm) hne
          · obtain ⟨tx, htx, hid, _⟩ := h3 i3 task3 j2 lid2 htask3b hph3
            intro hj
            exact Nat.lt_irrefl _ (hj ▸ hid ▸ h1 tx htx)
        · rcases update_lookup htask3 with ⟨hi3, hv3⟩ | ⟨hi3, htask3b⟩
          · obtain rfl := Option.some.inj hv3
            have hph3a : Phase.txCreated s.nextTx link.id = Phase.txCreated j2 lid2 := hph3
            cases hph3a
            obtain ⟨tx, htx, hid, _⟩ := h3 i2 task2 j lid htask2b hph2
            intro hj
            exact Nat.lt_irrefl _ (hj ▸ hid ▸ h1 tx htx)
          · exact h4 i2 i3 task2 task3 j lid j2 lid2 hne htask2b htask3b hph2 hph3
    case h_3 j0 lid0 hph =>
      obtain rfl := Option.some.inj hadv
      refine ⟨?_, ?_, ?_, ?_⟩
      · intro t ht
        obtain ⟨t0, ht0, hid⟩ := List.mem_map.mp ht
        rw [← hid, finalizeEntry_id]
        exact h1 t0 ht0
      · show ((finalizeTable c.now (simulateBankAPI task.req.cardNumber task.req.cvv)
            j0 s.txs).map Txn.id).Nodup
        rw [finalizeTable_ids]
        exact h2
      · intro i2 task2 j lid htask2 hph2
        rcases update_lookup htask2 with ⟨hi, hv⟩ | ⟨hi, htask2b⟩
        · obtain rfl := Option.some.inj hv
          have hph2a : Phase.txFinalized j0 lid0 = Phase.txCreated j lid := hph2
          cases hph2a
        · obtain ⟨tx, htx, hid, hst⟩ := h3 i2 task2 j lid htask2b hph2
          have hjj : j ≠ j0 :=
            h4 i2 i task2 task j lid j0 lid0 hi htask2b htask hph2 hph
          refine ⟨tx, ?_, hid, hst⟩
          exact mem_finalizeTable_of_ne _ _ _ htx (by rw [hid]; exact hjj)
      · intro i2 i3 task2 task3 j lid j2 lid2 hne htask2 htask3 hph2 hph3
        rcases update_lookup htask2 with ⟨hi2, hv2⟩ | ⟨hi2, htask2b⟩
        · obtain rfl := Option.some.inj hv2
          have hph2a : Phase.txFinalized j0 lid0 = Phase.txCreated j lid := hph2
          cases hph2a
        · rcases update_lookup htask3 with ⟨hi3, hv3⟩ | ⟨hi3, htask3b⟩
          · obtain rfl := Option.some.inj hv3
            have hph3a : Phase.txFinalized j0 lid0 = Phase.txCreated j2 lid2 := hph3
            cases hph3a
          · exact h4 i2 i3 task2 task3 j lid j2 lid2 hne htask2b htask3b hph2 hph3
    case h_4 j0 lid0 hph =>
      have hcommon : ∀ (links2 : List PaymentLink) (ph : Phase),
          (∀ j lid, ph ≠ Phase.txCreated j lid) →
          Inv { s with links := links2,
                       tasks := (Function.update s.tasks i
                         (some { task with phase := ph })) } := by
        intro links2 ph hnh
        refine ⟨h1, h2, ?_, ?_⟩
        · intro i2 task2 j lid htask2 hph2
          rcases update_lookup htask2 with ⟨hi, hv⟩ | ⟨hi, htask2b⟩
          · obtain rfl := Option.some.inj hv
            exact absurd hph2 (hnh j lid)
          · exact h3 i2 task2 j lid htask2b hph2
        · intro i2 i3 task2 task3 j lid j2 lid2 hne htask2 htask3 hph2 hph3
          rcases update_lookup htask2 with ⟨hi2, hv2⟩ | ⟨hi2, htask2b⟩
          · obtain rfl := Option.some.inj hv2
            exact absurd hph2 (hnh j lid)
          · rcases update_lookup htask3 with ⟨hi3, hv3⟩ | ⟨hi3, htask3b⟩
            · obtain rfl := Option.some.inj hv3
              exact absurd hph3 (hnh j2 lid2)
            · exact h4 i2 i3 task2 task3 j lid j2 lid2 hne htask2b htask3b hph2 hph3
      split at hadv
      · cases hinc : incrementUses s.links lid0 with
        | some links2 =>
            rw [hinc] at hadv
            obtain rfl := Option.some.inj hadv
            exact hcommon links2 .finished (fun j lid h => by cases h)
        | none =>
            rw [hinc] at hadv
            obtain rfl := Option.some.inj hadv
            exact hcommon s.links .errored (fun j lid h => by cases h)
      · obtain rfl := Option.some.inj hadv
        exact hcommon s.links .finished (fun j lid h => by cases h)
    case h_5 e hph => cases hadv
    case h_6 hph => cases hadv
    case h_7 hph => cases hadv

theorem inv_reachable {c : Clock} {s0 s : GState}
    (h0 : Inv s0) (h : Reachable c s0 s) : Inv s := by
  induction h with
  | refl => exact h0
  | tail hab hbc ih =>
      obtain ⟨i, hadv⟩ := hbc
      exact inv_preserved ih hadv

/-- C9: in every state reachable by any interleaving of redemption
requests, a transaction whose status is terminal (completed, failed or
cancelled) is never modified by any further step: the row survives the
step unchanged, and it remains the unique row with its id. -/
theorem c9_terminal_status_immutable
    (c : Clock) (links : List PaymentLink) (reqs : List PayReq)
    (s s2 : GState)
    (hreach : Reachable c (initState links reqs) s)
    (hstep : Step c s s2)
    (t : Txn) (ht : t ∈ s.txs) (hterm : t.status.isTerminal = true) :
    t ∈ s2.txs ∧ ∀ t2 ∈ s2.txs, t2.id = t.id → t2 = t := by
  have hinv : Inv s := inv_reachable (inv_initState links reqs) hreach
  obtain ⟨i, hadv⟩ := hstep
  have hinv2 : Inv s2 := inv_preserved hinv hadv
  obtain ⟨h1, h2, h3, h4⟩ := hinv
  have hmem : t ∈ s2.txs := by
    unfold advance at hadv
    split at hadv
    case h_1 htask => cases hadv
    case h_2 task htask =>
      split at hadv
      case h_1 hph =>
        obtain rfl := Option.some.inj hadv
        exact ht
      case h_2 link hph =>
        obtain rfl := Option.some.inj hadv
        exact List.mem_append_left _ ht
      case h_3 j0 lid0 hph =>
        obtain rfl := Option.some.inj hadv
        obtain ⟨tx, htx, hid0, hst⟩ := h3 i task j0 lid0 htask hph
        have hne : t.id ≠ j0 := by
          intro he
          have heq : t = tx := eq_of_mem_of_nodup_ids h2 ht htx (by rw [he, hid0])
          rw [heq, hst] at hterm
          cases hterm
        exact mem_finalizeTable_of_ne _ _ _ ht hne
      case h_4 j0 lid0 hph =>
        split at hadv
        · cases hinc : incrementUses s.links lid0 with
          | some links2 =>
              rw [hinc] at hadv
              obtain rfl := Option.some.inj hadv
              exact ht
          | none =>
              rw [hinc] at hadv
              obtain rfl := Option.some.inj hadv
              exact ht
        · obtain rfl := Option.some.inj hadv
          exact ht
      case h_5 e hph => cases hadv
      case h_6 hph => cases hadv
      case h_7 hph => cases hadv
  refine ⟨hmem, ?_⟩
  intro t2 ht2 hid
  exact eq_of_mem_of_nodup_ids hinv2.2.1 ht2 hmem hid

theorem advance_eq_notStarted {c : Clock} {s : GState} {i : Nat} {task : PayTask}
    (htask : s.tasks i = some task) (hph : task.phase = .notStarted) :
    advance c s i = some { s with tasks := (Function.update s.tasks i
      (some { task with phase := resolvePhase c s.links task.req })) } := by
  unfold advance
  rw [htask]
  dsimp only
  rw [hph]

theorem advance_eq_readDone {c : Clock} {s : GState} {i : Nat} {task : PayTask}
    {link : PaymentLink}
    (htask : s.tasks i = some task) (hph : task.phase = .readDone link) :
    advance c s i = some { s with
      txs := s.txs ++ [mkTxn s.nextTx link task.req]
      nextTx := s.nextTx + 1
      tasks := (Function.update s.tasks i
        (some { task with phase := .txCreated s.nextTx link.id })) } := by
  unfold advance
  rw [htask]
  dsimp only
  rw [hph]

theorem advance_eq_txCreated {c : Clock} {s : GState} {i : Nat} {task : PayTask}
    {j lid : Nat}
    (htask : s.tasks i = some task) (hph : task.phase = .txCreated j lid) :
    advance c s i = some { s with
      txs := finalizeTable c.now
        (simulateBankAPI task.req.cardNumber task.req.cvv) j s.txs
      tasks := (Function.update s.tasks i
        (some { task with phase := .txFinalized j lid })) } := by
  unfold advance
  rw [htask]
  dsimp only
  rw [hph]

theorem advance_eq_bump_declined {c : Clock} {s : GState} {i : Nat}
    {task : PayTask} {j lid : Nat}
    (htask : s.tasks i = some task) (hph : task.phase = .txFinalized j lid)
    (hbank : (simulateBankAPI task.req.cardNumber task.req.cvv).status
      ≠ TxStatus.completed) :
    advance c s i = some { s with tasks := (Function.update s.tasks i
      (some { task with phase := .finished })) } := by
  unfold advance
  rw [htask]
  dsimp only
  rw [hph]
  dsimp only
  rw [if_neg hbank]

theorem advance_eq_bump_ok {c : Clock} {s : GState} {i : Nat}
    {task : PayTask} {j lid : Nat} {links2 : List PaymentLink}
    (htask : s.tasks i = some task) (hph : task.phase = .txFinalized j lid)
    (hbank : (simulateBankAPI task.req.cardNumber task.req.cvv).status
      = TxStatus.completed)
    (hinc : incrementUses s.links lid = some links2) :
    advance c s i = some { s with
      links := links2
      tasks := (Function.update s.tasks i
        (some { task with phase := .finished })) } := by
  unfold advance
  rw [htask]
  dsimp only
  rw [hph]
  dsimp only
  rw [if_pos hbank, hinc]

theorem linkCheck_inactive {c : Clock} {link : PaymentLink}
    (h : link.isActive = false) :
    linkCheck c link = some .linkInactive := by
  simp [linkCheck, h]

theorem linkCheck_expired {c : Clock} {link : PaymentLink} {e : Nat}
    (ha : link.isActive = true) (he : link.expiresAt = some e)
    (hlt : e < c.now) :
    linkCheck c link = some .linkExpired := by
  simp [linkCheck, ha, he, hlt]

theorem linkCheck_exhausted {c : Clock} {link : PaymentLink} {m : Nat}
    (ha : link.isActive = true)
    (hnexp : ∀ e, link.expiresAt = some e → ¬ e < c.now)
    (hm : link.maxUses = some m) (hm1 : m ≠ 0)
    (hge : m ≤ link.currentUses) :
    linkCheck c link = some .linkExhausted := by
  cases hex : link.expiresAt with
  | none => simp [linkCheck, ha, hex, hm, hm1, hge]
  | some e =>
      have hnl := hnexp e hex
      simp [linkCheck, ha, hex, hnl, hm, hm1, hge]

theorem linkCheck_none {c : Clock} {link : PaymentLink}
    (ha : link.isActive = true)
    (hnexp : ∀ e, link.expiresAt = some e → ¬ e < c.now)
    (hok : ∀ m, link.maxUses = some m → ¬(m ≠ 0 ∧ m ≤ link.currentUses)) :
    linkCheck c link = none := by
  cases hex : link.expiresAt with
  | none =>
      cases hmu : link.maxUses with
      | none => simp [linkCheck, ha, hex, hmu]
      | some m => simp [linkCheck, ha, hex, hmu, hok m hmu]
  | some e =>
      have hnl := hnexp e hex
      cases hmu : link.maxUses with
      | none => simp [linkCheck, ha, hex, hnl, hmu]
      | some m => simp [linkCheck, ha, hex, hnl, hmu, hok m hmu]

theorem resolvePhase_found {c : Clock} {links : List PaymentLink} {r : PayReq}
    {link : PaymentLink}
    (hval : validateProcessBody c r = [])
    (hfind : findLink links r.linkId = some link) :
    resolvePhase c links r =
      (match linkCheck c link with
       | some e => Phase.rejected e
       | none =>
           if cardExpired c r then Phase.rejected .cardExpired
           else Phase.readDone link) := by
  simp only [resolvePhase, hval, hfind, if_pos]

theorem resolvePhase_notFound {c : Clock} {links : List PaymentLink} {r : PayReq}
    (hval : validateProcessBody c r = [])
    (hfind : findLink links r.linkId = none) :
    resolvePhase c links r = .rejected .notFound := by
  simp only [resolvePhase, hval, hfind, if_pos]

/-- C4: a redemption that passes body validation and resolves its link
is rejected by the eligibility pre-check with the specific error for
the first violated condition, in source order: inactive link, expired
link, exhausted link; a link whose expiry lies in the future and whose
cap is not reached passes the pre-check (only the card expiry check
remains before the ledger row is created); and in every such case the
notStarted step writes nothing: links, transactions and the id counter
are unchanged. The cap hypothesis restricts to caps of at least one,
which is what the create-link validator admits. -/
theorem c4_precheck_specific_errors (c : Clock) (links : List PaymentLink)
    (r : PayReq) (link : PaymentLink)
    (hval : validateProcessBody c r = [])
    (hfind : findLink links r.linkId = some link)
    (hmu : ∀ m, link.maxUses = some m → 1 ≤ m) :
    (link.isActive = false →
      resolvePhase c links r = .rejected .linkInactive)
    ∧ (∀ e, link.isActive = true → link.expiresAt = some e → e < c.now →
        resolvePhase c links r = .rejected .linkExpired)
    ∧ (∀ m, link.isActive = true →
        (∀ e, link.expiresAt = some e → ¬ e < c.now) →
        link.maxUses = some m → m ≤ link.currentUses →
        resolvePhase c links r = .rejected .linkExhausted)
    ∧ (∀ e, link.isActive = true → link.expiresAt = some e → c.now < e →
        (∀ m, link.maxUses = some m → link.currentUses < m) →
        (resolvePhase c links r = .readDone link
          ∨ resolvePhase c links r = .rejected .cardExpired))
    ∧ (∀ (s : GState) (i : Nat) (task : PayTask) (s2 : GState),
        s.tasks i = some task → task.phase = .notStarted →
        advance c s i = some s2 →
        s2.links = s.links ∧ s2.txs = s.txs ∧ s2.nextTx = s.nextTx
          ∧ phaseOf s2 i = some (resolvePhase c s.links task.req)) := by
  refine ⟨?_, ?_, ?_, ?_, ?_⟩
  · intro h
    rw [resolvePhase_found hval hfind, linkCheck_inactive h]
  · intro e ha he hlt
    rw [resolvePhase_found hval hfind, linkCheck_expired ha he hlt]
  · intro m ha hnexp hm hge
    rw [resolvePhase_found hval hfind,
      linkCheck_exhausted ha hnexp hm (Nat.one_le_iff_ne_zero.mp (hmu m hm)) hge]
  · intro e ha he hfut hlt
    have hnexp : ∀ e2, link.expiresAt = some e2 → ¬ e2 < c.now := by
      intro e2 he2
      rw [he] at he2
      obtain rfl := Option.some.inj he2
      omega
    have hok : ∀ m, link.maxUses = some m → ¬(m ≠ 0 ∧ m ≤ link.currentUses) := by
      intro m hm hcon
      exact Nat.lt_irrefl _ (Nat.lt_of_lt_of_le (hlt m hm) hcon.2)
    rw [resolvePhase_found hval hfind, linkCheck_none ha hnexp hok]
    by_cases hc : cardExpired c r
    · right
      simp [hc]
    · left
      simp [hc]
  · intro s i task s2 htask hph hadv
    rw [advance_eq_notStarted htask hph] at hadv
    obtain rfl := Option.some.inj hadv
    refine ⟨rfl, rfl, rfl, ?_⟩
    show (Function.update s.tasks i
      (some { task with phase := resolvePhase c s.links task.req }) i).map
        PayTask.phase = _
    rw [Function.update_same]
    rfl

theorem simulateBank_failed_reason (card cvv : String)
    (h : (simulateBankAPI card cvv).status = TxStatus.failed) :
    (simulateBankAPI card cvv).failureReason.isSome = true := by
  unfold simulateBankAPI at h ⊢
  by_cases h1 : lastCharIsZero card
  · rw [if_pos h1]
    rfl
  · rw [if_neg h1] at h ⊢
    by_cases h2 : lastCharIsZero cvv
    · rw [if_pos h2]
      rfl
    · rw [if_neg h2] at h
      cases h

/-- C5: a redemption whose gateway response is a decline runs to
completion with the transaction finalized as failed, carrying the
decline code, message and a populated failure reason copied from the
gateway response, while the stored links, including the usage counter
and every other field, are exactly as before the run. -/
theorem c5_decline_keeps_link_unchanged (c : Clock) (links : List PaymentLink)
    (r : PayReq) (link : PaymentLink)
    (hval : validateProcessBody c r = [])
    (hfind : findLink links r.linkId = some link)
    (hchk : linkCheck c link = none)
    (hcard : cardExpired c r = false)
    (hdecl : (simulateBankAPI r.cardNumber r.cvv).status = TxStatus.failed) :
    ∃ s4 : GState,
      runSched c (initState links [r]) [0, 0, 0, 0] = some s4
      ∧ s4.links = links
      ∧ s4.txs = [applyBank c.now (simulateBankAPI r.cardNumber r.cvv)
          (mkTxn 0 link r)]
      ∧ (∀ t ∈ s4.txs, t.status = TxStatus.failed
          ∧ t.failureReason = (simulateBankAPI r.cardNumber r.cvv).failureReason
          ∧ t.failureReason.isSome = true
          ∧ t.bankResponseCode
              = some (simulateBankAPI r.cardNumber r.cvv).responseCode
          ∧ t.bankResponseMessage
              = some (simulateBankAPI r.cardNumber r.cvv).responseMessage
          ∧ t.paymentLinkId = link.id
          ∧ t.amount = link.amount ∧ t.currency = link.currency) := by
  have htask0 : (initState links [r]).tasks 0
      = some { req := r, phase := Phase.notStarted } := rfl
  have hres : resolvePhase c links r = .readDone link := by
    rw [resolvePhase_found hval hfind, hchk]
    simp [hcard]
  have e1 := advance_eq_notStarted (c := c) htask0 rfl
  have hs1 : ∃ s1 : GState, advance c (initState links [r]) 0 = some s1
      ∧ s1.tasks 0 = some { req := r, phase := Phase.readDone link }
      ∧ s1.links = links ∧ s1.txs = ([] : List Txn) ∧ s1.nextTx = 0 := by
    refine ⟨_, e1, ?_, rfl, rfl, rfl⟩
    show Function.update (initState links [r]).tasks 0
      (some { req := r, phase := resolvePhase c (initState links [r]).links r }) 0
        = _
    rw [Function.update_same]
    have hres2 : resolvePhase c (initState links [r]).links r
        = .readDone link := hres
    rw [hres2]
  obtain ⟨s1, e1b, ht1, hl1, htx1, hn1⟩ := hs1
  have e2 := advance_eq_readDone (c := c) ht1 rfl
  have hs2 : ∃ s2 : GState, advance c s1 0 = some s2
      ∧ s2.tasks 0 = some { req := r, phase := Phase.txCreated 0 link.id }
      ∧ s2.links = links ∧ s2.txs = [mkTxn 0 link r] ∧ s2.nextTx = 1 := by
    refine ⟨_, e2, ?_, hl1, ?_, ?_⟩
    · show Function.update s1.tasks 0
        (some { req := r, phase := Phase.txCreated s1.nextTx link.id }) 0 = _
      rw [Function.update_same, hn1]
    · show s1.txs ++ [mkTxn s1.nextTx link r] = _
      rw [htx1, hn1]
      rfl
    · show s1.nextTx + 1 = 1
      rw [hn1]
  obtain ⟨s2, e2b, ht2, hl2, htx2, hn2⟩ := hs2
  have e3 := advance_eq_txCreated (c := c) ht2 rfl
  have hs3 : ∃ s3 : GState, advance c s2 0 = some s3
      ∧ s3.tasks 0 = some { req := r, phase := Phase.txFinalized 0 link.id }
      ∧ s3.links = links
      ∧ s3.txs = [applyBank c.now (simulateBankAPI r.cardNumber r.cvv)
          (mkTxn 0 link r)] := by
    refine ⟨_, e3, ?_, hl2, ?_⟩
    · show Function.update s2.tasks 0
        (some { req := r, phase := Phase.txFinalized 0 link.id }) 0 = _
      rw [Function.update_same]
    · show finalizeTable c.now (simulateBankAPI r.cardNumber r.cvv) 0 s2.txs = _
      rw [htx2]
      simp [finalizeTable, mkTxn]
  obtain ⟨s3, e3b, ht3, hl3, htx3⟩ := hs3
  have hbankne : (simulateBankAPI r.cardNumber r.cvv).status
      ≠ TxStatus.completed := by
    rw [hdecl]
    intro h
    cases h
  have e4 := advance_eq_bump_declined (c := c) ht3 rfl hbankne
  have hs4 : ∃ s4 : GState, advance c s3 0 = some s4
      ∧ s4.links = links
      ∧ s4.txs = [applyBank c.now (simulateBankAPI r.cardNumber r.cvv)
          (mkTxn 0 link r)] :=
    ⟨_, e4, hl3, htx3⟩
  obtain ⟨s4, e4b, hl4, htx4⟩ := hs4
  have hrun : runSched c (initState links [r]) [0, 0, 0, 0] = some s4 := by
    simp only [runSched, e1b, e2b, e3b, e4b]
  refine ⟨s4, hrun, hl4, htx4, ?_⟩
  intro t ht
  rw [htx4] at ht
  rcases List.mem_singleton.mp ht with rfl
  refine ⟨hdecl, rfl, simulateBank_failed_reason _ _ hdecl, rfl, rfl, rfl, rfl, rfl⟩

/-- C5 witness: the concrete declined redemption of reqDecl leaves the
stored link list exactly as it was. -/
theorem c5_witness :
    ((runSched cRace (initState [linkCap1] [reqDecl]) [0, 0, 0, 0]).map
      GState.links).getD [] = [linkCap1] := by
  obtain ⟨s4, hrun, hl4, _, _⟩ :=
    c5_decline_keeps_link_unchanged cRace [linkCap1] reqDecl linkCap1
      (by decide) (by decide) (by decide) (by decide) (by decide)
  rw [hrun]
  exact hl4

/-- C8 (amended): resolution is the first step after body validation:
a redemption whose body passes structural validation and whose token
matches no stored link is rejected with the not-found error, and the
step writes nothing. Body validation, however, runs before resolution,
so a malformed card with an unknown token is rejected as a validation
failure, not as not-found. -/
theorem c8_notfound_after_validation (c : Clock) (links : List PaymentLink)
    (r : PayReq)
    (hval : validateProcessBody c r = [])
    (hfind : findLink links r.linkId = none) :
    resolvePhase c links r = .rejected .notFound
    ∧ (∀ (s : GState) (i : Nat) (task : PayTask) (s2 : GState),
        s.tasks i = some task → task.phase = .notStarted → task.req = r →
        s.links = links →
        advance c s i = some s2 →
        s2.links = s.links ∧ s2.txs = s.txs ∧ s2.nextTx = s.nextTx
          ∧ phaseOf s2 i = some (Phase.rejected .notFound)) := by
  refine ⟨resolvePhase_notFound hval hfind, ?_⟩
  intro s i task s2 htask hph hreq hlinks hadv
  rw [advance_eq_notStarted htask hph] at hadv
  obtain rfl := Option.some.inj hadv
  refine ⟨rfl, rfl, rfl, ?_⟩
  show (Function.update s.tasks i
    (some { task with phase := resolvePhase c s.links task.req }) i).map
      PayTask.phase = _
  rw [Function.update_same]
  show some (resolvePhase c s.links task.req) = _
  rw [hreq, hlinks, resolvePhase_notFound hval hfind]

/-- C8 counterexample: a malformed card number together with an
unknown token is rejected as a validation failure, not with the
not-found error the claim requires, because the handler checks the
body before resolving the link. -/
theorem c8_counterexample :
    findLink [linkCap1] reqBadCard.linkId = none
    ∧ resolvePhase cRace [linkCap1] reqBadCard
        = .rejected (.validationFailed ["cardNumber"])
    ∧ (resolvePhase cRace [linkCap1] reqBadCard
        == Phase.rejected .notFound) = false := by
  refine ⟨by decide, by decide, by decide⟩

/-- C8 witness: the amended statement at a concrete unknown token. -/
theorem c8_witness :
    resolvePhase cRace [linkCap1] reqUnknown = .rejected .notFound :=
  (c8_notfound_after_validation cRace [linkCap1] reqUnknown
    (by decide) (by decide)).1

/-- C1 (violation evidence): from two not-yet-started redemptions of a
link capped at one use, the interleaving in which both requests pass
the snapshot eligibility check before either finalizes reaches a state
in which two completed transactions reference the link: the capacity
invariant fails because the handler marks the transaction completed
before the unconditional usage increment, which only the database
check_uses_limit constraint then stops. -/
theorem c1_completed_exceeds_cap :
    Reachable cRace raceInit afterRace
    ∧ raceInit.links.map PaymentLink.maxUses = [some 1]
    ∧ raceInit.txs = []
    ∧ completedCount afterRace 1 = 2 :=
  ⟨runSched_reachable cRace [0, 1, 0, 1, 0, 1, 0, 1] raceInit afterRace rfl,
    by decide, rfl, by decide⟩

/-- C2 (violation evidence): in the losing request of the race, the
usage increment affects zero rows (the database constraint rejects it),
yet the transaction of that request remains completed and no
transaction anywhere carries the failure reason
LinkExhaustedConcurrently: the handler has no conditional update and no
such finalization path, and the losing request ends in an error
instead. -/
theorem c2_exhausted_race_not_failed :
    Reachable cRace raceInit afterRace
    ∧ phaseOf afterRace 1 = some Phase.errored
    ∧ (afterRace.txs.any fun t =>
        t.id == 1 && t.status == TxStatus.completed) = true
    ∧ (afterRace.txs.all fun t =>
        t.failureReason != some "LinkExhaustedConcurrently") = true :=
  ⟨runSched_reachable cRace [0, 1, 0, 1, 0, 1, 0, 1] raceInit afterRace rfl,
    by decide, by decide, by decide⟩

/-- C3 (violation evidence): the losing request of the race ends in
the errored phase, meaning the storage error of the finalize step
propagated to the caller through the surrounding catch, even though
the ledger row of that request (transaction id 1) exists; no
transaction is ever forced to failed with reason InternalError, since
the handler has no retry or forcing logic. -/
theorem c3_bare_error_after_ledger_row :
    Reachable cRace raceInit afterRace
    ∧ phaseOf afterRace 1 = some Phase.errored
    ∧ (afterRace.txs.any fun t => t.id == 1) = true
    ∧ (afterRace.txs.all fun t =>
        t.failureReason != some "InternalError") = true :=
  ⟨runSched_reachable cRace [0, 1, 0, 1, 0, 1, 0, 1] raceInit afterRace rfl,
    by decide, by decide, by decide⟩

/-- C6 (violation evidence): the gateway adapter simulateBankAPI
always returns one of exactly three mock decisions and none of its
outcomes, for any card number and CVV whatsoever, is a timeout: its
failure reason is never GatewayTimeout, and the handler contains no
timeout around the call, so the timeout-as-decline behaviour the claim
describes does not exist in the code. -/
theorem c6_no_gateway_timeout_outcome (cardNumber cvv : String) :
    (simulateBankAPI cardNumber cvv
        = { status := .failed, responseCode := "DECLINED",
            responseMessage := "Card declined by issuer",
            failureReason := some "Insufficient funds" }
      ∨ simulateBankAPI cardNumber cvv
        = { status := .failed, responseCode := "INVALID_CVV",
            responseMessage := "Invalid security code",
            failureReason := some "Incorrect CVV" }
      ∨ simulateBankAPI cardNumber cvv
        = { status := .completed, responseCode := "APPROVED",
            responseMessage := "Transaction approved",
            failureReason := none })
    ∧ ((simulateBankAPI cardNumber cvv).failureReason
        != some "GatewayTimeout") = true := by
  unfold simulateBankAPI
  by_cases h1 : lastCharIsZero cardNumber
  · rw [if_pos h1]
    exact ⟨Or.inl rfl, by decide⟩
  · rw [if_neg h1]
    by_cases h2 : lastCharIsZero cvv
    · rw [if_pos h2]
      exact ⟨Or.inr (Or.inl rfl), by decide⟩
    · rw [if_neg h2]
      exact ⟨Or.inr (Or.inr rfl), by decide⟩

/-- C7 counterexample: a request whose expiry timestamp 5 lies before
the current time 1000000 and whose three-character currency is not
made of letters passes validation with no violated field and creates
the link: the validator checks only that the date is ISO 8601 and that
the currency has three characters, never that the date is in the
future or that the characters are letters. -/
theorem c7_counterexample :
    validateCreateLink reqPastExpiry = []
    ∧ (5 : Nat) < 1000000
    ∧ ("12#".data.all Char.isAlpha) = false
    ∧ createLink none 1000000 reqPastExpiry [] 7 "tok7"
        = .ok ({ id := 7, linkId := "tok7", amount := 1000,
                 currency := "12#", description := none,
                 expiresAt := some 5, maxUses := some 2,
                 currentUses := 0, isActive := true },
               [{ id := 7, linkId := "tok7", amount := 1000,
                  currency := "12#", description := none,
                  expiresAt := some 5, maxUses := some 2,
                  currentUses := 0, isActive := true }]) :=
  ⟨by decide, by decide, by decide, rfl⟩

/-- C7 (amended): link creation validates that the amount is positive,
that a provided currency has exactly three characters, that a provided
description has at most 500 characters, that a provided expiry date is
a valid ISO 8601 date (with no requirement that it lie in the future)
and that a provided maxUses is at least one; every violated field
appears in the returned list, a nonempty list aborts creation with
exactly that list, and an empty list creates the link. -/
theorem c7_create_validation (env : Option Nat) (now : Nat)
    (r : CreateLinkReq) (links : List PaymentLink) (newId : Nat)
    (tok : String) :
    (r.amount < 1 → "amount" ∈ validateCreateLink r)
    ∧ (∀ cur, r.currency = some cur → strLen cur ≠ 3 →
        "currency" ∈ validateCreateLink r)
    ∧ (∀ d, r.description = some d → 500 < strLen d →
        "description" ∈ validateCreateLink r)
    ∧ (r.expiresAt = .malformed → "expiresAt" ∈ validateCreateLink r)
    ∧ (∀ m, r.maxUses = some m → m < 1 → "maxUses" ∈ validateCreateLink r)
    ∧ (validateCreateLink r ≠ [] →
        createLink env now r links newId tok = .error (validateCreateLink r))
    ∧ (validateCreateLink r = [] →
        ∃ link links2, createLink env now r links newId tok = .ok (link, links2)
          ∧ links2 = links ++ [link]) := by
  refine ⟨?_, ?_, ?_, ?_, ?_, ?_, ?_⟩
  · intro h
    have hn : ¬ (1 : Int) ≤ r.amount := by omega
    simp [validateCreateLink, hn]
  · intro cur hc hlen
    simp [validateCreateLink, hc, hlen]
  · intro d hd hlen
    have hn : ¬ strLen d ≤ 500 := by omega
    simp [validateCreateLink, hd, hn]
  · intro h
    simp [validateCreateLink, h]
  · intro m hm hlt
    have hn : ¬ (1 : Int) ≤ m := by omega
    simp [validateCreateLink, hm, hn]
  · intro hne
    simp only [createLink]
    rw [if_neg hne]
  · intro heq
    simp only [createLink, heq]
    exact ⟨_, _, rfl, rfl⟩

/-- C7 witness: the amended statement at a request violating several
fields at once: all of them are listed and creation is aborted. -/
theorem c7_witness :
    "amount" ∈ validateCreateLink reqBadCreate
    ∧ "currency" ∈ validateCreateLink reqBadCreate
    ∧ "expiresAt" ∈ validateCreateLink reqBadCreate
    ∧ "maxUses" ∈ validateCreateLink reqBadCreate
    ∧ createLink none 0 reqBadCreate [] 1 "t"
        = .error (validateCreateLink reqBadCreate) := by
  obtain ⟨ha, hc, _, he, hm, hgate, _⟩ :=
    c7_create_validation none 0 reqBadCreate [] 1 "t"
  exact ⟨ha (by decide), hc "EU" rfl (by decide), he rfl,
    hm 0 rfl (by decide), hgate (by decide)⟩

/-- C10: when the expiry date is omitted from a valid create-link
request, the created link carries the default expiry of now plus the
configured number of hours (in milliseconds), the configured number of
hours being 24 when the environment variable is unset; the stored
expiry is in particular never null. -/
theorem c10_default_expiry (env : Option Nat) (now : Nat)
    (r : CreateLinkReq) (links : List PaymentLink) (newId : Nat)
    (tok : String)
    (habs : r.expiresAt = .absent)
    (hval : validateCreateLink r = []) :
    ∃ link links2, createLink env now r links newId tok = .ok (link, links2)
      ∧ link.expiresAt = some (now + defaultExpiryHours env * 3600000)
      ∧ link.expiresAt.isSome = true
      ∧ (env = none → defaultExpiryHours env = 24) := by
  simp only [createLink, hval, habs]
  exact ⟨_, _, rfl, rfl, rfl, fun h => by subst h; rfl⟩

/-- C10 witness: creating reqNoExpiry at time 100 with the environment
variable unset yields a link expiring at 100 plus 24 hours. -/
theorem c10_witness :
    ((createLink none 100 reqNoExpiry [] 3 "tk").toOption.map
      (fun p => p.1.expiresAt)).getD none = some 86400100 := by
  obtain ⟨link, links2, hok, hexp, _, _⟩ :=
    c10_default_expiry none 100 reqNoExpiry [] 3 "tk" rfl (by decide)
  rw [hok]
  show link.expiresAt = some 86400100
  rw [hexp]
  decide

/-- C9 witness: the concrete completed transaction of ws3 survives the
next step unchanged. -/
theorem c9_witness : wtx ∈ ws4.txs ∧ wtx.status = TxStatus.completed := by
  have hreach : Reachable cRace wsInit ws3 :=
    runSched_reachable cRace [0, 0, 0] wsInit ws3 rfl
  have hstep : Step cRace ws3 ws4 := ⟨0, rfl⟩
  have hmem : wtx ∈ ws3.txs := by decide
  have hterm : wtx.status.isTerminal = true := by decide
  exact ⟨(c9_terminal_status_immutable cRace [linkCap1] [reqA] ws3 ws4
    hreach hstep wtx hmem hterm).1, by decide⟩

/-- C4 witness: redeeming the inactive link is rejected with the
specific inactive-link error. -/
theorem c4_witness :
    resolvePhase cRace [linkOff] reqOff = .rejected .linkInactive :=
  (c4_precheck_specific_errors cRace [linkOff] reqOff linkOff
    (by decide) (by decide)
    (fun m hm => by
      obtain rfl := Option.some.inj hm
      exact Nat.le_refl 1)).1 rfl

end MiniStripe
